import Mathlib

/-!
Verification of the PiexelForge geometry core (primitive clipper and
triangle rasterizer, `src/gpu/rasterizer/cores.py` and
`src/gpu/rasterizer/rasterizer.py`) against its specification.

The hardware description is embedded shallowly: each FSM is translated to a
pure function whose control flow mirrors the FSM states, with registers
passed explicitly.  Stream handshakes (valid/ready back-pressure) are not
modelled; emission into an output stream becomes list construction, which is
faithful because the FSMs stall without changing any data when the consumer
is not ready.

Fixed-point model.  The repository's fixed-point library
(`gpu/utils/fixed.py`, referenced as `fixed.SQ(13, 13)` in
`gpu/utils/types.py`) is not present under `src/`.  Modelled from the spec:
a fixed-point value is a scaled integer with 13 fractional bits
(one unit = `fscale = 2^13 = 8192`); addition, subtraction and comparison
are exact; a product of two values carries 26 fractional bits and is
brought back to 13 fractional bits by truncation of the low bits, i.e.
floor division by `2^13` (two's-complement truncation).  The integer part
is modelled as unbounded (the hardware's 13-bit integer part can wrap;
that wrap is outside the model).

Reciprocal unit.  `gpu/utils/math.py` (`FixedPointInv`) is also absent from
`src/`; per the spec its internal algorithm is an implementation choice and
only its contract is fixed.  All definitions therefore take the reciprocal
as an explicit function parameter `inv : Int → Int` (raw fixed-point in,
raw fixed-point out); `invModel` below is a concrete best-possible
instance used for concrete evaluations.  A reciprocal request raised in
the same FSM state that writes its operand register (the `area` request of
BOUNDING_BOX, the `inv_w_sum` request of EMIT) is modelled as carrying the
freshly computed operand, i.e. the model assumes the unit accepts the
request no earlier than one cycle after the state is entered, matching the
intended dataflow.
-/

namespace PiexelForge

/-- Fixed-point scale: one unit in raw representation (13 fractional bits). -/
def fscale : Int := 8192

/-- Fixed-point product brought back to 13 fractional bits
(`(a * b).reshape(FixedPoint.f_bits)` in the source): floor division of the
raw product by `2^13`. -/
def fmul (a b : Int) : Int := Int.fdiv (a * b) 8192

/-- Modelled from the spec: the Reciprocal Approximator
(`gpu/utils/math.py`, `FixedPointInv`, absent from `src/`) returns an
approximation of `1/d`; this instance is the best representable one,
the floor of the exact reciprocal (raw: `2^26 / d`), sign-correct,
and with an arbitrary value at the undefined input `d = 0`. -/
def invModel (d : Int) : Int := Int.fdiv 67108864 d

/-- Four-component fixed-point vector (raw representations). -/
structure Vec4 where
  x : Int
  y : Int
  z : Int
  w : Int
deriving Repr, DecidableEq

/-- Modelled from the spec: one `RasterizerLayout` vertex.  The layout
itself is absent from `src/gpu/utils/layouts.py`; its fields are taken from
their uses in `cores.py` and `rasterizer.py`: a clip-space position
(the `w` field carries the `1/w` component per the spec's data model),
an RGBA color, `num_textures = 2` four-component texture-coordinate
vectors, and the carried front-facing flag. -/
structure Vertex where
  position_ndc : Vec4
  color : Vec4
  texcoords0 : Vec4
  texcoords1 : Vec4
  front_facing : Bool
deriving Repr, DecidableEq

instance : Inhabited Vertex :=
  ⟨⟨⟨0, 0, 0, 0⟩, ⟨0, 0, 0, 0⟩, ⟨0, 0, 0, 0⟩, ⟨0, 0, 0, 0⟩, false⟩⟩

/-- Primitive topology register (`PrimitiveType` in `gpu/utils/types.py`). -/
inductive PrimitiveType where
  | points
  | lines
  | triangles
deriving Repr, DecidableEq

/-- Vertex count per primitive as selected by the `prim_type` register
switch in `PrimitiveClipper.elaborate`. -/
def neededOf : PrimitiveType → Nat
  | .points => 1
  | .lines => 2
  | .triangles => 3

/-- The 6-bit outcode of `compute_clip_code` in the CHECK state:
bit 0 `x > w`, bit 1 `x < -w`, bit 2 `y > w`, bit 3 `y < -w`,
bit 4 `z > w`, bit 5 `z < -w`. -/
def compute_clip_code (v : Vec4) : Nat :=
  (if v.x > v.w then 1 else 0) +
  (if v.x < -v.w then 2 else 0) +
  (if v.y > v.w then 4 else 0) +
  (if v.y < -v.w then 8 else 0) +
  (if v.z > v.w then 16 else 0) +
  (if v.z < -v.w then 32 else 0)

/-- Signed distance of a vertex position to clip plane `p`, as computed in
the CLIP_EDGE state switch: plane 0 `w - x`, 1 `x + w`, 2 `w - y`,
3 `y + w`, 4 `w - z` (far), 5 `z + w` (near). -/
def planeDist (p : Nat) (v : Vec4) : Int :=
  match p with
  | 0 => v.w - v.x
  | 1 => v.x + v.w
  | 2 => v.w - v.y
  | 3 => v.y + v.w
  | 4 => v.w - v.z
  | _ => v.z + v.w

/-- Scalar linear interpolation as the `lerp` helper of the CLIP_APPLY
state computes it: `a + reshape(t * (b - a))`. -/
def lerpF (t a b : Int) : Int := a + fmul t (b - a)

/-- Componentwise `lerp` over a four-vector (`lerp_a` with `n = 4`). -/
def lerpVec4 (t : Int) (a b : Vec4) : Vec4 :=
  ⟨lerpF t a.x b.x, lerpF t a.y b.y, lerpF t a.z b.z, lerpF t a.w b.w⟩

/-- The `pos_clamped` mux tree of the CLIP_APPLY state: the coordinate that
defines plane `p` is replaced by `±w` of the interpolated position; the
other coordinates and `w` itself are kept. -/
def planeClamp (p : Nat) (pos : Vec4) : Vec4 :=
  ⟨if p = 0 then pos.w else if p = 1 then -pos.w else pos.x,
   if p = 2 then pos.w else if p = 3 then -pos.w else pos.y,
   if p = 4 then pos.w else if p = 5 then -pos.w else pos.z,
   pos.w⟩

/-- The intersection vertex built by CLIP_INV_REQ/CLIP_INV_WAIT/CLIP_APPLY:
`t_num = curr_dist`, `t_den = curr_dist - next_dist`,
`t = reshape(t_num * inv(t_den))`; position, color and both texcoord
vectors are interpolated by `t`; the position is then plane-clamped;
`front_facing` is copied from the current vertex. -/
def intersectVertex (inv : Int → Int) (p : Nat) (curr next : Vertex) :
    Vertex :=
  let t_num := planeDist p curr.position_ndc
  let t_den := planeDist p curr.position_ndc - planeDist p next.position_ndc
  let t := fmul t_num (inv t_den)
  { position_ndc :=
      planeClamp p (lerpVec4 t curr.position_ndc next.position_ndc)
    color := lerpVec4 t curr.color next.color
    texcoords0 := lerpVec4 t curr.texcoords0 next.texcoords0
    texcoords1 := lerpVec4 t curr.texcoords1 next.texcoords1
    front_facing := curr.front_facing }

/-- Output of one directed edge of the CLIP_EDGE state, following its
if/elif chain: both inside → the next vertex; inside→outside → the
intersection (`emit_next = 0`); outside→inside → the intersection then the
next vertex (`emit_next = 1`); both outside → nothing. -/
def clipEdge (inv : Int → Int) (p : Nat) (curr next : Vertex) :
    List Vertex :=
  let curr_inside := planeDist p curr.position_ndc ≥ 0
  let next_inside := planeDist p next.position_ndc ≥ 0
  if curr_inside then
    if next_inside then [next]
    else [intersectVertex inv p curr next]
  else
    if next_inside then [intersectVertex inv p curr next, next]
    else []

/-- One pass of the CLIP_PLANE/CLIP_EDGE loop over the source polygon:
edges are the pairs `(buf[i], buf[(i+1) mod count])` for
`i = 0 .. count-1` (the wrap mux `Mux(idx == count-1, 0, idx+1)`), and
their outputs are appended into the destination buffer in order. -/
def clipPass (inv : Int → Int) (p : Nat) (poly : List Vertex) :
    List Vertex :=
  (List.range poly.length).flatMap fun i =>
    clipEdge inv p (poly.getD i default)
      (poly.getD ((i + 1) % poly.length) default)

/-- The six-plane loop (CLIP → CLIP_PLANE ... → CLIP_EMIT): planes
`0..5` in order, skipping the remaining planes once the polygon is
empty. -/
def clipPlanes (inv : Int → Int) (poly : List Vertex) : List Vertex :=
  [0, 1, 2, 3, 4, 5].foldl
    (fun acc p => if acc.isEmpty then acc else clipPass inv p acc) poly

/-- CLIP_EMIT/CLIP_OUTPUT: a polygon with fewer than 3 vertices is
dropped; otherwise it is emitted as the triangle fan
`(v0, v[idx-1], v[idx])` for `idx = 2 .. count-1`. -/
def fanTriangles (poly : List Vertex) : List (List Vertex) :=
  if poly.length < 3 then []
  else
    (List.range (poly.length - 2)).map fun j =>
      [poly.getD 0 default, poly.getD (j + 1) default,
       poly.getD (j + 2) default]

/-- Full Sutherland–Hodgman clipping of one triangle (states CLIP through
CLIP_OUTPUT for `needed == 3`). -/
def clipTriangle (inv : Int → Int) (v0 v1 v2 : Vertex) :
    List (List Vertex) :=
  fanTriangles (clipPlanes inv [v0, v1, v2])

/-- The whole `PrimitiveClipper` FSM for one collected primitive, starting
at the CHECK state.  `b0 b1 b2` are the three collect-buffer slots; for
points only slot 0 and for lines only slots 0 and 1 were written by the
current primitive, the remaining slots keep their previous (stale)
contents, and the CHECK state nevertheless computes outcodes for all three
slots.  Output: the list of emitted primitives, each a list of vertices
(`w_out.n.p` vertices long). -/
def clipPrimitive (inv : Int → Int) (prim : PrimitiveType)
    (b0 b1 b2 : Vertex) : List (List Vertex) :=
  let needed := neededOf prim
  let c0 := compute_clip_code b0.position_ndc
  let c1 := compute_clip_code b1.position_ndc
  let c2 := compute_clip_code b2.position_ndc
  if Nat.land (Nat.land c0 c1) c2 ≠ 0 then []
  else if Nat.lor (Nat.lor c0 c1) c2 = 0 then
    [List.take needed [b0, b1, b2]]
  else if needed = 3 then clipTriangle inv b0 b1 b2
  else []

/-- Modelled from the spec: the framebuffer/viewport/scissor configuration
record read by `TriangleRasterizer` (`FramebufferInfoLayout`; the copy of
`gpu/utils/layouts.py` under `src/` predates the rasterizer and lacks the
viewport and scissor fields used by `rasterizer.py`).  Viewport origin and
extents and the scissor rectangle (integer origin + extents, per the spec)
are unsigned integers. -/
structure FbInfo where
  viewport_x : Nat
  viewport_y : Nat
  viewport_width : Nat
  viewport_height : Nat
  scissor_offset_x : Nat
  scissor_offset_y : Nat
  scissor_width : Nat
  scissor_height : Nat
deriving Repr, DecidableEq

/-- One output fragment (`FragmentLayout`): integer pixel coordinates,
interpolated depth, color and the two texcoord vectors. -/
structure Fragment where
  x : Int
  y : Int
  depth : Int
  color : Vec4
  texcoords0 : Vec4
  texcoords1 : Vec4
deriving Repr, DecidableEq

/-- The edge function of `TriangleRasterizer.edge_fn`:
`(bx - ax) * (cy - ay) - (by - ay) * (cx - ax)`, at full precision
(26 fractional bits when the arguments carry 13). -/
def edge_fn (ax ay bx by' cx cy : Int) : Int :=
  (bx - ax) * (cy - ay) - (by' - ay) * (cx - ax)

/-- Viewport transform of the SETUP state:
`screen_x = viewport_x + (ndc_x + 1) * (viewport_width >> 1)`. -/
def screenX (fb : FbInfo) (v : Vertex) : Int :=
  (fb.viewport_x : Int) * fscale +
    (v.position_ndc.x + fscale) * ((fb.viewport_width / 2 : Nat) : Int)

/-- Viewport transform of the SETUP state, y component. -/
def screenY (fb : FbInfo) (v : Vertex) : Int :=
  (fb.viewport_y : Int) * fscale +
    (v.position_ndc.y + fscale) * ((fb.viewport_height / 2 : Nat) : Int)

/-- The three-way minimum mux chain of the BOUNDING_BOX state. -/
def mux_min3 (a b c : Int) : Int :=
  if a < b then (if a < c then a else c) else (if b < c then b else c)

/-- The three-way maximum mux chain of the BOUNDING_BOX state. -/
def mux_max3 (a b c : Int) : Int :=
  if a > b then (if a > c then a else c) else (if b > c then b else c)

/-- Scissor left edge in fixed point (`FixedPoint(scissor_offset_x)`). -/
def scissorXF (fb : FbInfo) : Int := (fb.scissor_offset_x : Int) * fscale

/-- Scissor top edge in fixed point. -/
def scissorYF (fb : FbInfo) : Int := (fb.scissor_offset_y : Int) * fscale

/-- Scissor right edge `scissor_x + FixedPoint(scissor_width) - 1` in fixed
point. -/
def scissorMaxXF (fb : FbInfo) : Int :=
  scissorXF fb + (fb.scissor_width : Int) * fscale - fscale

/-- Scissor bottom edge in fixed point. -/
def scissorMaxYF (fb : FbInfo) : Int :=
  scissorYF fb + (fb.scissor_height : Int) * fscale - fscale

/-- Unclamped bounding-box minimum x of the triangle's screen vertices. -/
def bbMinX (fb : FbInfo) (v0 v1 v2 : Vertex) : Int :=
  mux_min3 (screenX fb v0) (screenX fb v1) (screenX fb v2)

/-- Unclamped bounding-box minimum y. -/
def bbMinY (fb : FbInfo) (v0 v1 v2 : Vertex) : Int :=
  mux_min3 (screenY fb v0) (screenY fb v1) (screenY fb v2)

/-- Unclamped bounding-box maximum x. -/
def bbMaxX (fb : FbInfo) (v0 v1 v2 : Vertex) : Int :=
  mux_max3 (screenX fb v0) (screenX fb v1) (screenX fb v2)

/-- Unclamped bounding-box maximum y. -/
def bbMaxY (fb : FbInfo) (v0 v1 v2 : Vertex) : Int :=
  mux_max3 (screenY fb v0) (screenY fb v1) (screenY fb v2)

/-- The guard-band cull condition `completely_outside` of the BOUNDING_BOX
state: the unclamped bounding box is disjoint from the scissor
rectangle. -/
def completelyOutside (fb : FbInfo) (v0 v1 v2 : Vertex) : Prop :=
  bbMaxX fb v0 v1 v2 < scissorXF fb ∨ bbMaxY fb v0 v1 v2 < scissorYF fb ∨
  bbMinX fb v0 v1 v2 > scissorMaxXF fb ∨ bbMinY fb v0 v1 v2 > scissorMaxYF fb

instance (fb : FbInfo) (v0 v1 v2 : Vertex) :
    Decidable (completelyOutside fb v0 v1 v2) := by
  unfold completelyOutside; infer_instance

/-- Per-triangle scan state: the latched screen coordinates, the
scissor-clamped bounding box, the vertex registers and the `area` and
`area_recip` registers. -/
structure ScanCtx where
  sx0 : Int
  sy0 : Int
  sx1 : Int
  sy1 : Int
  sx2 : Int
  sy2 : Int
  minX : Int
  minY : Int
  maxX : Int
  maxY : Int
  v0 : Vertex
  v1 : Vertex
  v2 : Vertex
  area : Int
  area_recip : Int

/-- Edge value `e0` of the SCAN state (edge 1→2) at pixel `(px, py)`,
full precision. -/
def e0At (c : ScanCtx) (px py : Int) : Int :=
  edge_fn c.sx1 c.sy1 c.sx2 c.sy2 px py

/-- Edge value `e1` of the SCAN state (edge 2→0). -/
def e1At (c : ScanCtx) (px py : Int) : Int :=
  edge_fn c.sx2 c.sy2 c.sx0 c.sy0 px py

/-- Edge value `e2` of the SCAN state (edge 0→1). -/
def e2At (c : ScanCtx) (px py : Int) : Int :=
  edge_fn c.sx0 c.sy0 c.sx1 c.sy1 px py

/-- The SCAN coverage test: all three edge values non-negative or all
three non-positive (computed on the full-precision combinational
values). -/
def insideAt (c : ScanCtx) (px py : Int) : Bool :=
  if (0 ≤ e0At c px py ∧ 0 ≤ e1At c px py ∧ 0 ≤ e2At c px py) ∨
      (e0At c px py ≤ 0 ∧ e1At c px py ≤ 0 ∧ e2At c px py ≤ 0) then
    true
  else false

/-- The `w0` weight register: `e0` truncated back to 13 fractional bits on
assignment. -/
def w0At (c : ScanCtx) (px py : Int) : Int := Int.fdiv (e0At c px py) 8192

/-- The `w1` weight register. -/
def w1At (c : ScanCtx) (px py : Int) : Int := Int.fdiv (e1At c px py) 8192

/-- The `w2` weight register. -/
def w2At (c : ScanCtx) (px py : Int) : Int := Int.fdiv (e2At c px py) 8192

/-- The `inv_w_sum` register of the EMIT state:
`w0 * v0.w + w1 * v1.w + w2 * v2.w` truncated to 13 fractional bits
(`position_ndc.w` carries the reciprocal-w component). -/
def invWSumAt (c : ScanCtx) (px py : Int) : Int :=
  Int.fdiv
    (w0At c px py * c.v0.position_ndc.w + w1At c px py * c.v1.position_ndc.w +
      w2At c px py * c.v2.position_ndc.w) 8192

/-- The `depth_num` register of the EMIT state: linear (screen-space)
numerator `w0 * z0 + w1 * z1 + w2 * z2` truncated to 13 fractional
bits. -/
def depthNumAt (c : ScanCtx) (px py : Int) : Int :=
  Int.fdiv
    (w0At c px py * c.v0.position_ndc.z + w1At c px py * c.v1.position_ndc.z +
      w2At c px py * c.v2.position_ndc.z) 8192

/-- One component of the `color_num` registers:
`w0 * c0 * v0.w + w1 * c1 * v1.w + w2 * c2 * v2.w`, a 39-fractional-bit
sum truncated to 13 bits on assignment. -/
def attrNumAt (c : ScanCtx) (px py a0 a1 a2 : Int) : Int :=
  Int.fdiv
    (w0At c px py * a0 * c.v0.position_ndc.w +
      w1At c px py * a1 * c.v1.position_ndc.w +
      w2At c px py * a2 * c.v2.position_ndc.w) 67108864

/-- The four `color_num` registers as a vector. -/
def colorNumAt (c : ScanCtx) (px py : Int) : Vec4 :=
  ⟨attrNumAt c px py c.v0.color.x c.v1.color.x c.v2.color.x,
   attrNumAt c px py c.v0.color.y c.v1.color.y c.v2.color.y,
   attrNumAt c px py c.v0.color.z c.v1.color.z c.v2.color.z,
   attrNumAt c px py c.v0.color.w c.v1.color.w c.v2.color.w⟩

/-- The `texcoord_num` registers for texture unit 0. -/
def texNum0At (c : ScanCtx) (px py : Int) : Vec4 :=
  ⟨attrNumAt c px py c.v0.texcoords0.x c.v1.texcoords0.x c.v2.texcoords0.x,
   attrNumAt c px py c.v0.texcoords0.y c.v1.texcoords0.y c.v2.texcoords0.y,
   attrNumAt c px py c.v0.texcoords0.z c.v1.texcoords0.z c.v2.texcoords0.z,
   attrNumAt c px py c.v0.texcoords0.w c.v1.texcoords0.w c.v2.texcoords0.w⟩

/-- The `texcoord_num` registers for texture unit 1. -/
def texNum1At (c : ScanCtx) (px py : Int) : Vec4 :=
  ⟨attrNumAt c px py c.v0.texcoords1.x c.v1.texcoords1.x c.v2.texcoords1.x,
   attrNumAt c px py c.v0.texcoords1.y c.v1.texcoords1.y c.v2.texcoords1.y,
   attrNumAt c px py c.v0.texcoords1.z c.v1.texcoords1.z c.v2.texcoords1.z,
   attrNumAt c px py c.v0.texcoords1.w c.v1.texcoords1.w c.v2.texcoords1.w⟩

/-- Componentwise product with the `inv_w_sum` reciprocal, as the OUTPUT
state assigns color and texcoord payload fields. -/
def perspectiveScale (n : Vec4) (r : Int) : Vec4 :=
  ⟨fmul n.x r, fmul n.y r, fmul n.z r, fmul n.w r⟩

/-- The fragment assembled by the OUTPUT state at pixel `(px, py)`:
coordinates are the truncations of `px, py`; depth is
`depth_num * area_recip`; color and texcoords are the perspective
numerators times `inv(inv_w_sum)`. -/
def outputFragment (inv : Int → Int) (c : ScanCtx) (px py : Int) :
    Fragment :=
  { x := Int.fdiv px 8192
    y := Int.fdiv py 8192
    depth := fmul (depthNumAt c px py) c.area_recip
    color := perspectiveScale (colorNumAt c px py) (inv (invWSumAt c px py))
    texcoords0 :=
      perspectiveScale (texNum0At c px py) (inv (invWSumAt c px py))
    texcoords1 :=
      perspectiveScale (texNum1At c px py) (inv (invWSumAt c px py)) }

/-- The SCAN/EMIT/INTERP_WAIT/OUTPUT/ADVANCE loop.  Covered pixels emit a
fragment and submit `inv_w_sum` to the reciprocal unit; ADVANCE moves in
scanline order: `px ≥ max_x` resets `px` to `min_x` and either finishes
(`py ≥ max_y`) or moves one row down.  `fuel` bounds the recursion and is
chosen large enough by `rasterize`.  Returns the emitted fragments and the
denominators submitted to the reciprocal unit. -/
def scanLoop (inv : Int → Int) (c : ScanCtx) :
    Int → Int → Nat → List Fragment × List Int
  | _, _, 0 => ([], [])
  | px, py, fuel + 1 =>
    let rest :=
      if px ≥ c.maxX then
        if py ≥ c.maxY then ([], [])
        else scanLoop inv c c.minX (py + fscale) fuel
      else scanLoop inv c (px + fscale) py fuel
    if insideAt c px py then
      (outputFragment inv c px py :: rest.1, invWSumAt c px py :: rest.2)
    else rest

/-- The `area` register of the BOUNDING_BOX state: the full-precision edge
function of the three screen vertices, truncated to 13 fractional bits on
assignment. -/
def rastArea (fb : FbInfo) (v0 v1 v2 : Vertex) : Int :=
  Int.fdiv
    (edge_fn (screenX fb v0) (screenY fb v0) (screenX fb v1) (screenY fb v1)
      (screenX fb v2) (screenY fb v2)) 8192

/-- The `min_x` register: bounding-box minimum clamped to the scissor
left edge. -/
def clampedMinX (fb : FbInfo) (v0 v1 v2 : Vertex) : Int :=
  if bbMinX fb v0 v1 v2 < scissorXF fb then scissorXF fb
  else bbMinX fb v0 v1 v2

/-- The `min_y` register. -/
def clampedMinY (fb : FbInfo) (v0 v1 v2 : Vertex) : Int :=
  if bbMinY fb v0 v1 v2 < scissorYF fb then scissorYF fb
  else bbMinY fb v0 v1 v2

/-- The `max_x` register: bounding-box maximum clamped to the scissor
right edge. -/
def clampedMaxX (fb : FbInfo) (v0 v1 v2 : Vertex) : Int :=
  if bbMaxX fb v0 v1 v2 > scissorMaxXF fb then scissorMaxXF fb
  else bbMaxX fb v0 v1 v2

/-- The `max_y` register. -/
def clampedMaxY (fb : FbInfo) (v0 v1 v2 : Vertex) : Int :=
  if bbMaxY fb v0 v1 v2 > scissorMaxYF fb then scissorMaxYF fb
  else bbMaxY fb v0 v1 v2

/-- The scan state latched for one triangle by SETUP/BOUNDING_BOX/
AREA_RECIP_WAIT. -/
def rastCtx (inv : Int → Int) (fb : FbInfo) (v0 v1 v2 : Vertex) : ScanCtx :=
  { sx0 := screenX fb v0, sy0 := screenY fb v0
    sx1 := screenX fb v1, sy1 := screenY fb v1
    sx2 := screenX fb v2, sy2 := screenY fb v2
    minX := clampedMinX fb v0 v1 v2, minY := clampedMinY fb v0 v1 v2
    maxX := clampedMaxX fb v0 v1 v2, maxY := clampedMaxY fb v0 v1 v2
    v0 := v0, v1 := v1, v2 := v2
    area := rastArea fb v0 v1 v2, area_recip := inv (rastArea fb v0 v1 v2) }

/-- The whole `TriangleRasterizer` FSM for one collected triangle (states
SETUP through ADVANCE).  Returns the emitted fragments and the list of
denominators submitted to the reciprocal unit (the `area` request of the
BOUNDING_BOX state first, then one `inv_w_sum` per covered pixel).  When
`completely_outside` holds the triangle is dropped with no fragment and no
reciprocal request. -/
def rasterize (inv : Int → Int) (fb : FbInfo) (v0 v1 v2 : Vertex) :
    List Fragment × List Int :=
  if completelyOutside fb v0 v1 v2 then ([], [])
  else
    let c := rastCtx inv fb v0 v1 v2
    let fuel :=
      ((c.maxX - c.minX).toNat / 8192 + 2) *
        ((c.maxY - c.minY).toNat / 8192 + 2)
    let r := scanLoop inv c c.minX c.minY fuel
    (r.1, c.area :: r.2)

/-! ## Specification-side definitions

The following definitions are written from the specification's words (not
from the source); they exist to be compared against the source-derived
definitions above in refinement theorems. -/

/-- Written from the spec: the intersection parameter
`t = dist_curr * reciprocal(dist_curr - dist_next)` of §4.2 step 4, at
the base fixed-point precision. -/
def specT (inv : Int → Int) (dc dn : Int) : Int := fmul dc (inv (dc - dn))

/-- Written from the spec: a vertex all of whose attributes (position,
color, texcoords) are linearly interpolated by `t` between the current and
the next vertex. -/
def specLerpVertex (t : Int) (curr next : Vertex) : Vertex :=
  { position_ndc := lerpVec4 t curr.position_ndc next.position_ndc
    color := lerpVec4 t curr.color next.color
    texcoords0 := lerpVec4 t curr.texcoords0 next.texcoords0
    texcoords1 := lerpVec4 t curr.texcoords1 next.texcoords1
    front_facing := curr.front_facing }

/-- Written from the spec: "the coordinate defining the current plane is
force-clamped to lie exactly on the plane (derived from the
w-component)" — `x := w` for plane `+x`, `x := -w` for `-x`, and
analogously for `y` and `z`. -/
def specPlaneSnap (p : Nat) (v : Vertex) : Vertex :=
  { v with position_ndc :=
      match p with
      | 0 => { v.position_ndc with x := v.position_ndc.w }
      | 1 => { v.position_ndc with x := -v.position_ndc.w }
      | 2 => { v.position_ndc with y := v.position_ndc.w }
      | 3 => { v.position_ndc with y := -v.position_ndc.w }
      | 4 => { v.position_ndc with z := v.position_ndc.w }
      | _ => { v.position_ndc with z := -v.position_ndc.w } }

/-- Written from the spec: the four sign cases of §4.2 step 4 for one
directed edge — both inside: the next vertex; current inside, next
outside: only the intersection; current outside, next inside: the
intersection then the next vertex; both outside: nothing. -/
def specClipEdge (inv : Int → Int) (p : Nat) (curr next : Vertex) :
    List Vertex :=
  let dc := planeDist p curr.position_ndc
  let dn := planeDist p next.position_ndc
  let ix := specPlaneSnap p (specLerpVertex (specT inv dc dn) curr next)
  if 0 ≤ dc ∧ 0 ≤ dn then [next]
  else if 0 ≤ dc ∧ dn < 0 then [ix]
  else if dc < 0 ∧ 0 ≤ dn then [ix, next]
  else []

/-- A vertex lies exactly on clip plane `p`: its plane-defining coordinate
equals `±w`. -/
def liesOnPlane (p : Nat) (v : Vertex) : Prop :=
  match p with
  | 0 => v.position_ndc.x = v.position_ndc.w
  | 1 => v.position_ndc.x = -v.position_ndc.w
  | 2 => v.position_ndc.y = v.position_ndc.w
  | 3 => v.position_ndc.y = -v.position_ndc.w
  | 4 => v.position_ndc.z = v.position_ndc.w
  | 5 => v.position_ndc.z = -v.position_ndc.w
  | _ => False

/-! ## Sample data for concrete witnesses -/

/-- A vertex with the given raw clip-space position and fixed sample
attributes (used for concrete instantiations; one unit is 8192). -/
def sampleVertex (x y z w : Int) : Vertex :=
  { position_ndc := ⟨x, y, z, w⟩
    color := ⟨8192, 0, 0, 8192⟩
    texcoords0 := ⟨4096, 2048, 0, 8192⟩
    texcoords1 := ⟨0, 0, 0, 0⟩
    front_facing := true }

/-- A framebuffer configuration with a 2×2 viewport at the origin (so the
viewport transform maps NDC x to `x + 1` screen units) and an 8×8 scissor
rectangle at the origin. -/
def sampleFb : FbInfo := ⟨0, 0, 2, 2, 0, 0, 8, 8⟩

/-- A framebuffer configuration whose 4×4 scissor rectangle starts at
pixel (16, 16), far from the origin. -/
def farScissorFb : FbInfo := ⟨0, 0, 2, 2, 16, 16, 4, 4⟩

/-- A framebuffer configuration like `sampleFb` but with a 4×4 scissor
rectangle starting at pixel (1, 1). -/
def smallScissorFb : FbInfo := ⟨0, 0, 2, 2, 1, 1, 4, 4⟩

/-- The degenerate (collinear) triangle of the spec's Scenario E: its NDC
vertices `(-1,-1), (0,0), (1,1)` map to the collinear screen points
`(0,0), (1,1), (2,2)` under `sampleFb`, so the edge-function area is 0. -/
def collinearV0 : Vertex := sampleVertex (-8192) (-8192) 0 8192

/-- Second vertex of the collinear triangle. -/
def collinearV1 : Vertex := sampleVertex 0 0 0 8192

/-- Third vertex of the collinear triangle. -/
def collinearV2 : Vertex := sampleVertex 8192 8192 0 8192

/-- First vertex of a triangle whose clipped polygon overflows the
nine-entry clip buffers (found by search; all raw coordinates and all
intermediate distances stay far below the 2^26 limit of the 27-bit
signals, so the example is representable in the hardware's SQ(13,13)
format). -/
def overflowV0 : Vertex := sampleVertex (-6917713) 10473365 (-12000000) (-2415729)

/-- Second vertex of the overflowing triangle. -/
def overflowV1 : Vertex := sampleVertex 10563876 (-1116339) 11067756 8962909

/-- Third vertex of the overflowing triangle. -/
def overflowV2 : Vertex := sampleVertex (-6624687) (-12000000) (-5404060) 9666918

/-! ## Helper lemmas -/

theorem nat_le_lor_left (a b : Nat) : a ≤ a ||| b :=
  Nat.le_of_testBit fun i hi => by simp [Nat.testBit_or, hi]

theorem lor3_eq_zero (a b c : Nat) (h : a ||| b ||| c = 0) :
    a = 0 ∧ b = 0 ∧ c = 0 := by
  have hab : a ||| b = 0 :=
    Nat.eq_zero_of_le_zero (h ▸ nat_le_lor_left (a ||| b) c)
  have ha : a = 0 := Nat.eq_zero_of_le_zero (hab ▸ nat_le_lor_left a b)
  have hb : b = 0 := by
    have : b ≤ a ||| b := by
      rw [Nat.lor_comm]; exact nat_le_lor_left b a
    exact Nat.eq_zero_of_le_zero (hab ▸ this)
  have hc : c = 0 := by
    have : c ≤ a ||| b ||| c := by
      rw [Nat.lor_comm]; exact nat_le_lor_left c (a ||| b)
    exact Nat.eq_zero_of_le_zero (h ▸ this)
  exact ⟨ha, hb, hc⟩

theorem getD_mem_of_lt {α : Type} [Inhabited α] (l : List α) (i : Nat)
    (h : i < l.length) : l.getD i default ∈ l := by
  rw [List.getD_eq_getElem _ _ h]
  exact List.getElem_mem h

theorem clipEdge_eq_spec (inv : Int → Int) (p : Nat) (hp : p < 6)
    (curr next : Vertex) :
    clipEdge inv p curr next = specClipEdge inv p curr next := by
  have hix : intersectVertex inv p curr next =
      specPlaneSnap p
        (specLerpVertex
          (specT inv (planeDist p curr.position_ndc)
            (planeDist p next.position_ndc)) curr next) := by
    interval_cases p <;> rfl
  unfold clipEdge specClipEdge
  by_cases h1 : 0 ≤ planeDist p curr.position_ndc <;>
    by_cases h2 : 0 ≤ planeDist p next.position_ndc
  · simp [h1, h2, ge_iff_le]
  · simp [h1, h2, ge_iff_le, hix, not_le.mp h2]
  · simp [h1, h2, ge_iff_le, hix, not_le.mp h1]
  · simp [h1, h2, ge_iff_le, not_le.mp h1, not_le.mp h2]

theorem intersect_lies_on_plane (inv : Int → Int) (p : Nat) (hp : p < 6)
    (curr next : Vertex) :
    liesOnPlane p (intersectVertex inv p curr next) := by
  interval_cases p <;> simp [liesOnPlane, intersectVertex, planeClamp]

theorem scanLoop_mem_frag (inv : Int → Int) (c : ScanCtx) :
    ∀ (fuel : Nat) (px py : Int) (f : Fragment),
      f ∈ (scanLoop inv c px py fuel).1 →
      ∃ qx qy, insideAt c qx qy = true ∧ f = outputFragment inv c qx qy := by
  intro fuel
  induction fuel with
  | zero => intro px py f hf; simp [scanLoop] at hf
  | succ n ih =>
    intro px py f hf
    unfold scanLoop at hf
    by_cases hin : insideAt c px py <;> simp only [hin, Bool.false_eq_true,
      if_false, if_true] at hf
    · rcases List.mem_cons.mp hf with hf | hf
      · exact ⟨px, py, hin, hf⟩
      · split_ifs at hf with hx hy
        · simp at hf
        · exact ih _ _ f hf
        · exact ih _ _ f hf
    · split_ifs at hf with hx hy
      · simp at hf
      · exact ih _ _ f hf
      · exact ih _ _ f hf

theorem scanLoop_mem_bounds (inv : Int → Int) (c : ScanCtx)
    (ax bx ay by' : Int) (hminx : ax ≤ c.minX) (hminxb : c.minX ≤ bx)
    (hmaxx : c.maxX ≤ bx) (hmaxy : c.maxY ≤ by') :
    ∀ (fuel : Nat) (px py : Int) (f : Fragment),
      ax ≤ px → px ≤ bx + 8191 → ay ≤ py → py ≤ by' + 8191 →
      f ∈ (scanLoop inv c px py fuel).1 →
      ∃ qx qy, f = outputFragment inv c qx qy ∧
        ax ≤ qx ∧ qx ≤ bx + 8191 ∧ ay ≤ qy ∧ qy ≤ by' + 8191 := by
  have hfs : fscale = (8192 : Int) := rfl
  intro fuel
  induction fuel with
  | zero => intro px py f _ _ _ _ hf; simp [scanLoop] at hf
  | succ n ih =>
    intro px py f h1 h2 h3 h4 hf
    unfold scanLoop at hf
    by_cases hin : insideAt c px py <;> simp only [hin, Bool.false_eq_true,
      if_false, if_true] at hf
    · rcases List.mem_cons.mp hf with hf | hf
      · exact ⟨px, py, hf, h1, h2, h3, h4⟩
      · split_ifs at hf with hx hy
        · simp at hf
        · exact ih _ _ f hminx (by omega) (by omega) (by omega) hf
        · exact ih _ _ f (by omega) (by omega) h3 h4 hf
    · split_ifs at hf with hx hy
      · simp at hf
      · exact ih _ _ f hminx (by omega) (by omega) (by omega) hf
      · exact ih _ _ f (by omega) (by omega) h3 h4 hf

/-! ## Claim theorems -/

/-- C5: a triangle whose three outcodes share a set bit (bitwise AND
nonzero) is trivially rejected by the CHECK state: `clip(t)` emits
nothing. -/
theorem clip_trivial_reject (inv : Int → Int) (b0 b1 b2 : Vertex)
    (h : Nat.land
        (Nat.land (compute_clip_code b0.position_ndc)
          (compute_clip_code b1.position_ndc))
        (compute_clip_code b2.position_ndc) ≠ 0) :
    clipPrimitive inv .triangles b0 b1 b2 = [] := by
  unfold clipPrimitive
  simp [h]

/-- Witness for C5: a triangle entirely beyond the `+x` plane is
dropped. -/
theorem clip_trivial_reject_witness :
    clipPrimitive invModel .triangles (sampleVertex 20000 0 0 8192)
      (sampleVertex 30000 0 0 8192) (sampleVertex 20000 8192 0 8192) = [] :=
  clip_trivial_reject invModel _ _ _ (by decide)

/-- C4: a triangle whose three outcodes OR to zero (all vertices inside
the view volume) is trivially accepted: `clip(t)` yields exactly the input
triangle, every vertex unchanged. -/
theorem clip_trivial_accept (inv : Int → Int) (b0 b1 b2 : Vertex)
    (h : Nat.lor
        (Nat.lor (compute_clip_code b0.position_ndc)
          (compute_clip_code b1.position_ndc))
        (compute_clip_code b2.position_ndc) = 0) :
    clipPrimitive inv .triangles b0 b1 b2 = [[b0, b1, b2]] := by
  obtain ⟨h0, h1, h2⟩ := lor3_eq_zero _ _ _ h
  unfold clipPrimitive
  simp [h0, h1, h2, neededOf, show Nat.land (Nat.land 0 0) 0 = 0 from rfl,
    show Nat.lor (Nat.lor 0 0) 0 = 0 from rfl]

/-- Witness for C4: the spec's Scenario A triangle
`(0,0,0,1), (1,0,0,1), (0,1,0,1)` passes through unchanged. -/
theorem clip_trivial_accept_witness :
    clipPrimitive invModel .triangles (sampleVertex 0 0 0 8192)
      (sampleVertex 8192 0 0 8192) (sampleVertex 0 8192 0 8192) =
      [[sampleVertex 0 0 0 8192, sampleVertex 8192 0 0 8192,
        sampleVertex 0 8192 0 8192]] :=
  clip_trivial_accept invModel _ _ _ (by decide)

/-- Counterexample for C2: a POINTS primitive whose single vertex violates
the `+x` plane (`x > w`) is not passed through: the CHECK state sends it to
the CLIP state (the stale buffer slots hold inside vertices, so neither
trivial test fires) and the unimplemented non-triangle branch drops it. -/
theorem points_not_passed_through :
    clipPrimitive invModel .points (sampleVertex 16384 0 0 8192)
      (sampleVertex 0 0 0 0) (sampleVertex 0 0 0 0) ≠
      [[sampleVertex 16384 0 0 8192]] := by
  decide

/-- C2 (amended): a POINTS or LINES primitive is passed through unchanged
exactly when the outcodes of all three collect-buffer slots (stale slots
included) OR to zero; otherwise it is dropped — trivially rejected when
the outcodes share a bit, and otherwise discarded by the unimplemented
non-triangle clipping branch. -/
theorem points_lines_passthrough (inv : Int → Int) (prim : PrimitiveType)
    (b0 b1 b2 : Vertex) (h : prim = .points ∨ prim = .lines) :
    clipPrimitive inv prim b0 b1 b2 =
      if Nat.lor
          (Nat.lor (compute_clip_code b0.position_ndc)
            (compute_clip_code b1.position_ndc))
          (compute_clip_code b2.position_ndc) = 0 then
        [List.take (neededOf prim) [b0, b1, b2]]
      else [] := by
  by_cases hor : Nat.lor
      (Nat.lor (compute_clip_code b0.position_ndc)
        (compute_clip_code b1.position_ndc))
      (compute_clip_code b2.position_ndc) = 0
  · obtain ⟨h0, h1, h2⟩ := lor3_eq_zero _ _ _ hor
    unfold clipPrimitive
    simp [h0, h1, h2, show Nat.land (Nat.land 0 0) 0 = 0 from rfl,
      show Nat.lor (Nat.lor 0 0) 0 = 0 from rfl]
  · unfold clipPrimitive
    rcases h with h | h <;> subst h <;>
      by_cases hand : Nat.land
          (Nat.land (compute_clip_code b0.position_ndc)
            (compute_clip_code b1.position_ndc))
          (compute_clip_code b2.position_ndc) = 0 <;>
      simp [hand, hor, neededOf]

/-- Witness for C2 (amended): an inside point with clean stale slots
passes through as a single vertex; the outside point of the counterexample
is dropped. -/
theorem points_lines_passthrough_witness :
    clipPrimitive invModel .points (sampleVertex 0 0 0 8192)
      (sampleVertex 0 0 0 0) (sampleVertex 0 0 0 0) =
      [[sampleVertex 0 0 0 8192]] := by
  have h := points_lines_passthrough invModel .points
    (sampleVertex 0 0 0 8192) (sampleVertex 0 0 0 0) (sampleVertex 0 0 0 0)
    (Or.inl rfl)
  rw [h]
  decide

/-- C6: each Sutherland–Hodgman plane pass handles every directed wrapping
edge of the source polygon by the four sign cases of the signed plane
distances — both inside emits only the next vertex, inside→outside only
the intersection, outside→inside the intersection then the next vertex,
both outside nothing — where the intersection vertex interpolates every
attribute by `t = dist_curr * reciprocal(dist_curr - dist_next)` (with the
plane-defining coordinate then snapped onto the plane, cf. C7).  Stated as
a refinement: the source-derived pass equals the pass written from the
spec's four sentences. -/
theorem clip_pass_edge_cases (inv : Int → Int) (p : Nat) (hp : p < 6)
    (poly : List Vertex) :
    clipPass inv p poly =
      (List.range poly.length).flatMap fun i =>
        specClipEdge inv p (poly.getD i default)
          (poly.getD ((i + 1) % poly.length) default) := by
  unfold clipPass
  congr 1
  funext i
  exact clipEdge_eq_spec inv p hp _ _

/-- Witness for C6: the pass over a two-vertex polygon crossing the `+x`
plane. -/
theorem clip_pass_edge_cases_witness :
    clipPass invModel 0
        [sampleVertex 0 0 0 8192, sampleVertex 16384 4096 0 8192] =
      (List.range 2).flatMap fun i =>
        specClipEdge invModel 0
          ([sampleVertex 0 0 0 8192,
            sampleVertex 16384 4096 0 8192].getD i default)
          ([sampleVertex 0 0 0 8192,
            sampleVertex 16384 4096 0 8192].getD ((i + 1) % 2) default) :=
  clip_pass_edge_cases invModel 0 (by decide) _

/-- C7: every vertex a plane pass emits is either one of the original,
unaltered input vertices, or an intersection vertex whose plane-defining
coordinate was forced onto plane `p` (its `x` equals `±w` for the x
planes, analogously for y and z, the `w` being the interpolated
w-component). -/
theorem clip_pass_plane_membership (inv : Int → Int) (p : Nat) (hp : p < 6)
    (poly : List Vertex) (v : Vertex) (hv : v ∈ clipPass inv p poly) :
    v ∈ poly ∨ liesOnPlane p v := by
  unfold clipPass at hv
  rw [List.mem_flatMap] at hv
  obtain ⟨i, hi, hv⟩ := hv
  rw [List.mem_range] at hi
  have hlen : 0 < poly.length := lt_of_le_of_lt (Nat.zero_le i) hi
  generalize hu : poly.getD i default = u at hv
  generalize hx : poly.getD ((i + 1) % poly.length) default = nx at hv
  have hnext : nx ∈ poly := hx ▸ getD_mem_of_lt _ _ (Nat.mod_lt _ hlen)
  unfold clipEdge at hv
  by_cases h1 : 0 ≤ planeDist p u.position_ndc <;>
    by_cases h2 : 0 ≤ planeDist p nx.position_ndc <;>
      simp [ge_iff_le, h1, h2] at hv
  · exact Or.inl (hv ▸ hnext)
  · exact Or.inr (hv ▸ intersect_lies_on_plane inv p hp u nx)
  · rcases hv with hv | hv
    · exact Or.inr (hv ▸ intersect_lies_on_plane inv p hp u nx)
    · exact Or.inl (hv ▸ hnext)

/-- Witness for C7: the intersection vertex produced while clipping an
edge against the `-x` plane is on that plane. -/
theorem clip_pass_plane_membership_witness :
    intersectVertex invModel 1 (sampleVertex 0 0 0 8192)
          (sampleVertex (-16384) 0 0 8192) ∈
        [sampleVertex 0 0 0 8192, sampleVertex (-16384) 0 0 8192] ∨
      liesOnPlane 1
        (intersectVertex invModel 1 (sampleVertex 0 0 0 8192)
          (sampleVertex (-16384) 0 0 8192)) :=
  clip_pass_plane_membership invModel 1 (by decide)
    [sampleVertex 0 0 0 8192, sampleVertex (-16384) 0 0 8192] _ (by decide)

theorem scanLoop_reqs_irrel (inv inv2 : Int → Int) (c : ScanCtx) (r : Int) :
    ∀ (fuel : Nat) (px py : Int),
      (scanLoop inv2 { c with area_recip := r } px py fuel).2 =
          (scanLoop inv c px py fuel).2 ∧
        (scanLoop inv2 { c with area_recip := r } px py fuel).1.length =
          (scanLoop inv c px py fuel).1.length := by
  intro fuel
  induction fuel with
  | zero => intro px py; simp [scanLoop]
  | succ n ih =>
    intro px py
    have hins : insideAt { c with area_recip := r } px py = insideAt c px py :=
      rfl
    have hws :
        invWSumAt { c with area_recip := r } px py = invWSumAt c px py := rfl
    unfold scanLoop
    by_cases hin : insideAt c px py <;>
      simp only [hins, hin, Bool.false_eq_true, if_true, if_false] <;>
      by_cases hx : px ≥ c.maxX <;> by_cases hy : py ≥ c.maxY <;>
        simp only [show ({ c with area_recip := r } : ScanCtx).maxX = c.maxX
            from rfl,
          show ({ c with area_recip := r } : ScanCtx).maxY = c.maxY from rfl,
          show ({ c with area_recip := r } : ScanCtx).minX = c.minX from rfl,
          hx, hy, if_true, if_false, hws] <;>
        simp [hws, (ih _ _).1, (ih _ _).2]

theorem rasterize_reqs_irrel (inv inv2 : Int → Int) (fb : FbInfo)
    (v0 v1 v2 : Vertex) :
    (rasterize inv fb v0 v1 v2).2 = (rasterize inv2 fb v0 v1 v2).2 ∧
      (rasterize inv fb v0 v1 v2).1.length =
        (rasterize inv2 fb v0 v1 v2).1.length := by
  unfold rasterize
  split_ifs with h
  · simp
  · have hctx : rastCtx inv fb v0 v1 v2 =
        { rastCtx inv2 fb v0 v1 v2 with
          area_recip := inv (rastArea fb v0 v1 v2) } := rfl
    simp only [hctx]
    constructor
    · simp [(scanLoop_reqs_irrel inv2 inv (rastCtx inv2 fb v0 v1 v2) _ _ _ _).1]
    · simp [(scanLoop_reqs_irrel inv2 inv (rastCtx inv2 fb v0 v1 v2) _ _ _ _).2]

/-- C9: a triangle whose unclamped screen-space bounding box is entirely
outside the scissor rectangle is discarded by the BOUNDING_BOX state: no
fragment is emitted, no reciprocal is requested, and the per-pixel scan is
never entered (the FSM returns to COLLECT). -/
theorem guard_band_cull (inv : Int → Int) (fb : FbInfo) (v0 v1 v2 : Vertex)
    (h : completelyOutside fb v0 v1 v2) :
    rasterize inv fb v0 v1 v2 = ([], []) := by
  unfold rasterize
  rw [if_pos h]

/-- Witness for C9: a triangle at the origin with the scissor rectangle at
(16, 16) yields no fragments and no reciprocal request. -/
theorem guard_band_cull_witness :
    rasterize invModel farScissorFb (sampleVertex (-8192) (-8192) 0 8192)
      (sampleVertex 8192 (-8192) 0 8192) (sampleVertex (-8192) 8192 0 8192) =
      ([], []) :=
  guard_band_cull invModel farScissorFb _ _ _ (by decide)

/-- C1 (code bug): the BOUNDING_BOX state has no `area == 0` guard, so the
collinear Scenario-E triangle (screen points `(0,0), (1,1), (2,2)`, area
0) is not discarded: the rasterizer submits the zero area to the
Reciprocal Approximator (first request, followed by three more zero
`inv_w_sum` denominators) and emits three fragments, for every reciprocal
implementation `inv`. -/
theorem degenerate_triangle_not_guarded (inv : Int → Int) :
    (rasterize inv sampleFb collinearV0 collinearV1 collinearV2).2 =
        [0, 0, 0, 0] ∧
      (rasterize inv sampleFb collinearV0 collinearV1 collinearV2).1.length =
        3 := by
  obtain ⟨hr, hl⟩ :=
    rasterize_reqs_irrel inv invModel sampleFb collinearV0 collinearV1
      collinearV2
  constructor
  · rw [hr]; decide
  · rw [hl]; decide

/-- C8: every emitted fragment's depth is interpolated linearly in screen
space — the truncated sum `w0*z0 + w1*z1 + w2*z2` times the reciprocal of
the `area` register — while its color and both texcoord vectors are
interpolated perspective-correctly: the numerators
`Σ wᵢ * attrᵢ * (1/vᵢ.w)` (the `position_ndc.w` field carries `1/w`)
times the reciprocal of `inv_w_sum = Σ wᵢ * (1/vᵢ.w)`, at some covered
pixel `(px, py)` of the scan. -/
theorem fragment_interpolation (inv : Int → Int) (fb : FbInfo)
    (v0 v1 v2 : Vertex) (f : Fragment)
    (hf : f ∈ (rasterize inv fb v0 v1 v2).1) :
    ∃ px py,
      insideAt (rastCtx inv fb v0 v1 v2) px py = true ∧
      f.depth =
        fmul
          (Int.fdiv
            (w0At (rastCtx inv fb v0 v1 v2) px py * v0.position_ndc.z +
              w1At (rastCtx inv fb v0 v1 v2) px py * v1.position_ndc.z +
              w2At (rastCtx inv fb v0 v1 v2) px py * v2.position_ndc.z) 8192)
          (inv (rastArea fb v0 v1 v2)) ∧
      f.color =
        perspectiveScale (colorNumAt (rastCtx inv fb v0 v1 v2) px py)
          (inv
            (Int.fdiv
              (w0At (rastCtx inv fb v0 v1 v2) px py * v0.position_ndc.w +
                w1At (rastCtx inv fb v0 v1 v2) px py * v1.position_ndc.w +
                w2At (rastCtx inv fb v0 v1 v2) px py * v2.position_ndc.w)
              8192)) ∧
      f.texcoords0 =
        perspectiveScale (texNum0At (rastCtx inv fb v0 v1 v2) px py)
          (inv
            (Int.fdiv
              (w0At (rastCtx inv fb v0 v1 v2) px py * v0.position_ndc.w +
                w1At (rastCtx inv fb v0 v1 v2) px py * v1.position_ndc.w +
                w2At (rastCtx inv fb v0 v1 v2) px py * v2.position_ndc.w)
              8192)) ∧
      f.texcoords1 =
        perspectiveScale (texNum1At (rastCtx inv fb v0 v1 v2) px py)
          (inv
            (Int.fdiv
              (w0At (rastCtx inv fb v0 v1 v2) px py * v0.position_ndc.w +
                w1At (rastCtx inv fb v0 v1 v2) px py * v1.position_ndc.w +
                w2At (rastCtx inv fb v0 v1 v2) px py * v2.position_ndc.w)
              8192)) := by
  by_cases hout : completelyOutside fb v0 v1 v2
  · simp [rasterize, hout] at hf
  · simp only [rasterize, if_neg hout] at hf
    obtain ⟨qx, qy, hin, rfl⟩ :=
      scanLoop_mem_frag inv (rastCtx inv fb v0 v1 v2) _ _ _ f hf
    exact ⟨qx, qy, hin, rfl, rfl, rfl, rfl⟩

/-- C10: under the precondition `scissor_width ≥ 1` and
`scissor_height ≥ 1`, every emitted fragment's integer pixel coordinates
lie inside the scissor rectangle: the scan variables never leave the
scissor-clamped bounding box and the emitted coordinates are their
truncations. -/
theorem fragment_in_scissor (inv : Int → Int) (fb : FbInfo)
    (v0 v1 v2 : Vertex) (hw : 1 ≤ fb.scissor_width)
    (hh : 1 ≤ fb.scissor_height) (f : Fragment)
    (hf : f ∈ (rasterize inv fb v0 v1 v2).1) :
    (fb.scissor_offset_x : Int) ≤ f.x ∧
      f.x ≤ (fb.scissor_offset_x : Int) + (fb.scissor_width : Int) - 1 ∧
      (fb.scissor_offset_y : Int) ≤ f.y ∧
      f.y ≤ (fb.scissor_offset_y : Int) + (fb.scissor_height : Int) - 1 := by
  by_cases hout : completelyOutside fb v0 v1 v2
  · simp [rasterize, hout] at hf
  · simp only [rasterize, if_neg hout] at hf
    have hfs : fscale = (8192 : Int) := rfl
    unfold completelyOutside at hout
    push_neg at hout
    obtain ⟨ho1, ho2, ho3, ho4⟩ := hout
    have hswpos : scissorXF fb ≤ scissorMaxXF fb := by
      simp only [scissorMaxXF, scissorXF, fscale]
      have : (1 : Int) ≤ (fb.scissor_width : Int) := by exact_mod_cast hw
      omega
    have hshpos : scissorYF fb ≤ scissorMaxYF fb := by
      simp only [scissorMaxYF, scissorYF, fscale]
      have : (1 : Int) ≤ (fb.scissor_height : Int) := by exact_mod_cast hh
      omega
    have hminx1 : scissorXF fb ≤ (rastCtx inv fb v0 v1 v2).minX := by
      show scissorXF fb ≤ clampedMinX fb v0 v1 v2
      unfold clampedMinX
      split_ifs with h
      · exact le_refl _
      · omega
    have hminx2 : (rastCtx inv fb v0 v1 v2).minX ≤ scissorMaxXF fb := by
      show clampedMinX fb v0 v1 v2 ≤ scissorMaxXF fb
      unfold clampedMinX
      split_ifs with h
      · exact hswpos
      · exact ho3
    have hmaxx : (rastCtx inv fb v0 v1 v2).maxX ≤ scissorMaxXF fb := by
      show clampedMaxX fb v0 v1 v2 ≤ scissorMaxXF fb
      unfold clampedMaxX
      split_ifs with h
      · exact le_refl _
      · omega
    have hminy1 : scissorYF fb ≤ (rastCtx inv fb v0 v1 v2).minY := by
      show scissorYF fb ≤ clampedMinY fb v0 v1 v2
      unfold clampedMinY
      split_ifs with h
      · exact le_refl _
      · omega
    have hminy2 : (rastCtx inv fb v0 v1 v2).minY ≤ scissorMaxYF fb := by
      show clampedMinY fb v0 v1 v2 ≤ scissorMaxYF fb
      unfold clampedMinY
      split_ifs with h
      · exact hshpos
      · exact ho4
    have hmaxy : (rastCtx inv fb v0 v1 v2).maxY ≤ scissorMaxYF fb := by
      show clampedMaxY fb v0 v1 v2 ≤ scissorMaxYF fb
      unfold clampedMaxY
      split_ifs with h
      · exact le_refl _
      · omega
    obtain ⟨qx, qy, hfq, b1, b2, b3, b4⟩ :=
      scanLoop_mem_bounds inv (rastCtx inv fb v0 v1 v2) (scissorXF fb)
        (scissorMaxXF fb) (scissorYF fb) (scissorMaxYF fb) hminx1 hminx2
        hmaxx hmaxy _ _ _ f hminx1 (le_trans hminx2 (by omega)) hminy1
        (le_trans hminy2 (by omega)) hf
    have hx : f.x = qx / 8192 := by
      rw [hfq]
      show Int.fdiv qx 8192 = qx / 8192
      exact Int.fdiv_eq_ediv _ (by norm_num)
    have hy : f.y = qy / 8192 := by
      rw [hfq]
      show Int.fdiv qy 8192 = qy / 8192
      exact Int.fdiv_eq_ediv _ (by norm_num)
    simp only [scissorMaxXF, scissorMaxYF, scissorXF, scissorYF, fscale]
      at b1 b2 b3 b4
    rw [hx, hy]
    omega

/-- Witness for C8: the fragment the scan emits at pixel `(0, 0)` for a
right triangle under `sampleFb`. -/
theorem fragment_interpolation_witness :
    ∃ px py,
      insideAt
          (rastCtx invModel sampleFb (sampleVertex (-8192) (-8192) 0 8192)
            (sampleVertex 8192 (-8192) 0 8192)
            (sampleVertex (-8192) 8192 0 8192)) px py = true ∧
      (outputFragment invModel
          (rastCtx invModel sampleFb (sampleVertex (-8192) (-8192) 0 8192)
            (sampleVertex 8192 (-8192) 0 8192)
            (sampleVertex (-8192) 8192 0 8192)) 0 0).depth =
        fmul
          (Int.fdiv
            (w0At
                (rastCtx invModel sampleFb
                  (sampleVertex (-8192) (-8192) 0 8192)
                  (sampleVertex 8192 (-8192) 0 8192)
                  (sampleVertex (-8192) 8192 0 8192)) px py *
                (sampleVertex (-8192) (-8192) 0 8192).position_ndc.z +
              w1At
                  (rastCtx invModel sampleFb
                    (sampleVertex (-8192) (-8192) 0 8192)
                    (sampleVertex 8192 (-8192) 0 8192)
                    (sampleVertex (-8192) 8192 0 8192)) px py *
                (sampleVertex 8192 (-8192) 0 8192).position_ndc.z +
              w2At
                  (rastCtx invModel sampleFb
                    (sampleVertex (-8192) (-8192) 0 8192)
                    (sampleVertex 8192 (-8192) 0 8192)
                    (sampleVertex (-8192) 8192 0 8192)) px py *
                (sampleVertex (-8192) 8192 0 8192).position_ndc.z) 8192)
          (invModel
            (rastArea sampleFb (sampleVertex (-8192) (-8192) 0 8192)
              (sampleVertex 8192 (-8192) 0 8192)
              (sampleVertex (-8192) 8192 0 8192))) ∧
      (outputFragment invModel
          (rastCtx invModel sampleFb (sampleVertex (-8192) (-8192) 0 8192)
            (sampleVertex 8192 (-8192) 0 8192)
            (sampleVertex (-8192) 8192 0 8192)) 0 0).color =
        perspectiveScale
          (colorNumAt
            (rastCtx invModel sampleFb (sampleVertex (-8192) (-8192) 0 8192)
              (sampleVertex 8192 (-8192) 0 8192)
              (sampleVertex (-8192) 8192 0 8192)) px py)
          (invModel
            (Int.fdiv
              (w0At
                  (rastCtx invModel sampleFb
                    (sampleVertex (-8192) (-8192) 0 8192)
                    (sampleVertex 8192 (-8192) 0 8192)
                    (sampleVertex (-8192) 8192 0 8192)) px py *
                  (sampleVertex (-8192) (-8192) 0 8192).position_ndc.w +
                w1At
                    (rastCtx invModel sampleFb
                      (sampleVertex (-8192) (-8192) 0 8192)
                      (sampleVertex 8192 (-8192) 0 8192)
                      (sampleVertex (-8192) 8192 0 8192)) px py *
                  (sampleVertex 8192 (-8192) 0 8192).position_ndc.w +
                w2At
                    (rastCtx invModel sampleFb
                      (sampleVertex (-8192) (-8192) 0 8192)
                      (sampleVertex 8192 (-8192) 0 8192)
                      (sampleVertex (-8192) 8192 0 8192)) px py *
                  (sampleVertex (-8192) 8192 0 8192).position_ndc.w)
              8192)) ∧
      (outputFragment invModel
          (rastCtx invModel sampleFb (sampleVertex (-8192) (-8192) 0 8192)
            (sampleVertex 8192 (-8192) 0 8192)
            (sampleVertex (-8192) 8192 0 8192)) 0 0).texcoords0 =
        perspectiveScale
          (texNum0At
            (rastCtx invModel sampleFb (sampleVertex (-8192) (-8192) 0 8192)
              (sampleVertex 8192 (-8192) 0 8192)
              (sampleVertex (-8192) 8192 0 8192)) px py)
          (invModel
            (Int.fdiv
              (w0At
                  (rastCtx invModel sampleFb
                    (sampleVertex (-8192) (-8192) 0 8192)
                    (sampleVertex 8192 (-8192) 0 8192)
                    (sampleVertex (-8192) 8192 0 8192)) px py *
                  (sampleVertex (-8192) (-8192) 0 8192).position_ndc.w +
                w1At
                    (rastCtx invModel sampleFb
                      (sampleVertex (-8192) (-8192) 0 8192)
                      (sampleVertex 8192 (-8192) 0 8192)
                      (sampleVertex (-8192) 8192 0 8192)) px py *
                  (sampleVertex 8192 (-8192) 0 8192).position_ndc.w +
                w2At
                    (rastCtx invModel sampleFb
                      (sampleVertex (-8192) (-8192) 0 8192)
                      (sampleVertex 8192 (-8192) 0 8192)
                      (sampleVertex (-8192) 8192 0 8192)) px py *
                  (sampleVertex (-8192) 8192 0 8192).position_ndc.w)
              8192)) ∧
      (outputFragment invModel
          (rastCtx invModel sampleFb (sampleVertex (-8192) (-8192) 0 8192)
            (sampleVertex 8192 (-8192) 0 8192)
            (sampleVertex (-8192) 8192 0 8192)) 0 0).texcoords1 =
        perspectiveScale
          (texNum1At
            (rastCtx invModel sampleFb (sampleVertex (-8192) (-8192) 0 8192)
              (sampleVertex 8192 (-8192) 0 8192)
              (sampleVertex (-8192) 8192 0 8192)) px py)
          (invModel
            (Int.fdiv
              (w0At
                  (rastCtx invModel sampleFb
                    (sampleVertex (-8192) (-8192) 0 8192)
                    (sampleVertex 8192 (-8192) 0 8192)
                    (sampleVertex (-8192) 8192 0 8192)) px py *
                  (sampleVertex (-8192) (-8192) 0 8192).position_ndc.w +
                w1At
                    (rastCtx invModel sampleFb
                      (sampleVertex (-8192) (-8192) 0 8192)
                      (sampleVertex 8192 (-8192) 0 8192)
                      (sampleVertex (-8192) 8192 0 8192)) px py *
                  (sampleVertex 8192 (-8192) 0 8192).position_ndc.w +
                w2At
                    (rastCtx invModel sampleFb
                      (sampleVertex (-8192) (-8192) 0 8192)
                      (sampleVertex 8192 (-8192) 0 8192)
                      (sampleVertex (-8192) 8192 0 8192)) px py *
                  (sampleVertex (-8192) 8192 0 8192).position_ndc.w)
              8192)) :=
  fragment_interpolation invModel sampleFb _ _ _ _ (by decide)

/-- Witness for C10: the single fragment emitted under `smallScissorFb`
lies inside its scissor rectangle. -/
theorem fragment_in_scissor_witness :
    ((smallScissorFb.scissor_offset_x : Int) ≤
        (outputFragment invModel
          (rastCtx invModel smallScissorFb
            (sampleVertex (-8192) (-8192) 0 8192)
            (sampleVertex 8192 (-8192) 0 8192)
            (sampleVertex (-8192) 8192 0 8192)) 8192 8192).x) ∧
      (outputFragment invModel
            (rastCtx invModel smallScissorFb
              (sampleVertex (-8192) (-8192) 0 8192)
              (sampleVertex 8192 (-8192) 0 8192)
              (sampleVertex (-8192) 8192 0 8192)) 8192 8192).x ≤
        (smallScissorFb.scissor_offset_x : Int) +
          (smallScissorFb.scissor_width : Int) - 1 ∧
      (smallScissorFb.scissor_offset_y : Int) ≤
        (outputFragment invModel
          (rastCtx invModel smallScissorFb
            (sampleVertex (-8192) (-8192) 0 8192)
            (sampleVertex 8192 (-8192) 0 8192)
            (sampleVertex (-8192) 8192 0 8192)) 8192 8192).y ∧
      (outputFragment invModel
            (rastCtx invModel smallScissorFb
              (sampleVertex (-8192) (-8192) 0 8192)
              (sampleVertex 8192 (-8192) 0 8192)
              (sampleVertex (-8192) 8192 0 8192)) 8192 8192).y ≤
        (smallScissorFb.scissor_offset_y : Int) +
          (smallScissorFb.scissor_height : Int) - 1 :=
  fragment_in_scissor invModel smallScissorFb
    (sampleVertex (-8192) (-8192) 0 8192) (sampleVertex 8192 (-8192) 0 8192)
    (sampleVertex (-8192) 8192 0 8192) (by decide) (by decide) _ (by decide)

/-- C3 (code bug): quantization of the reciprocal and truncation of the
fixed-point interpolation make the clipped polygon only approximately
convex, so a plane pass can gain more than one vertex; on this triangle
(outcodes 38, 17, 8 — trivial tests both fail) the pass counts run
3, 4, 5, 6, 7, 8, 10: the final (near-plane) pass produces a 10-vertex
polygon, whose last write targets clip buffer index 9 — beyond the
nine-entry `clip_buf` arrays — and CLIP_OUTPUT then fans it into 8
triangles, violating both the [0, 9] count invariant and the 0..7
output-triangle bound. -/
theorem clip_count_overflow :
    (clipPlanes invModel [overflowV0, overflowV1, overflowV2]).length = 10 ∧
      (clipPrimitive invModel .triangles overflowV0 overflowV1
          overflowV2).length = 8 := by
  constructor <;> decide

end PiexelForge
